import Mathlib

/-!
Verification of the locomotivehousemailer queue-draining core.

The development shallowly embeds the processing-related source files:
the queue client (auth header construction, pending-list fetch,
mark-as-sent, mark-as-failed, count-by-status) and the email processor
(batch loop and per-email outcome handling).  Network effects are
reified: each client operation returns either a configuration error or
a description of the HTTP request it would issue, and the processor is
parameterised by an environment giving the outcome of each external
call.  The processor additionally emits a trace of events (delivery
attempts and status-update calls) so that claims about which calls
happen can be stated.
-/

namespace LocomotiveMailer

/-- Message status, as in the EmailQueueItem type of the source. -/
inductive EmailStatus where
  | pending
  | sent
  | failed
deriving DecidableEq, Repr

/-- A queued email record (EmailQueueItem in types.ts).  Timestamps are
abstracted as natural numbers; optional fields are Options. -/
structure EmailQueueItem where
  id : Nat
  recipient_email : String
  subject : String
  body : String
  html_body : Option String := none
  status : EmailStatus
  retry_count : Nat
  max_retries : Nat
  last_error : Option String := none
  sent_at : Option Nat := none
deriving DecidableEq, Repr

/-- One entry of the error list of a PollResult. -/
structure PollErrorEntry where
  emailId : Nat
  error : String
deriving DecidableEq, Repr

/-- The batch result returned by processPendingEmails (PollResult in
types.ts). -/
structure PollResult where
  processed : Nat
  failed : Nat
  errors : List PollErrorEntry
deriving DecidableEq, Repr

/-- Auth method of the mailer configuration. -/
inductive AuthMethod where
  | jwt
  | clerk
deriving DecidableEq, Repr

/-- The slice of MailerConfig consumed by the queue client. -/
structure MailerConfig where
  apiBaseUrl : String
  authMethod : AuthMethod
  apiJwtToken : Option String := none
  clerkRefreshToken : Option String := none
  apiKey : Option String := none

/-- State of a constructed QueueClient. -/
structure QueueClient where
  apiBaseUrl : String
  authMethod : AuthMethod
  authToken : Option String := none
  clerkRefreshToken : Option String := none
  apiKey : Option String := none

/-- The QueueClient constructor: for the clerk auth method it keeps the
clerk refresh token, otherwise it keeps the JWT token. -/
def QueueClient.ofConfig (config : MailerConfig) : QueueClient :=
  { apiBaseUrl := config.apiBaseUrl
    authMethod := config.authMethod
    apiKey := config.apiKey
    authToken := if config.authMethod = .clerk then none else config.apiJwtToken
    clerkRefreshToken :=
      if config.authMethod = .clerk then config.clerkRefreshToken else none }

/-- JavaScript truthiness of an optional string token: absent or empty
means missing. -/
def tokenPresent : Option String → Bool
  | none => false
  | some s => !s.isEmpty

/-- getAuthHeader: returns the bearer header for the active auth method,
or a configuration error if the corresponding token is missing. -/
def QueueClient.getAuthHeader (c : QueueClient) : Except String String :=
  match c.authMethod with
  | .clerk =>
    if tokenPresent c.clerkRefreshToken then
      .ok ("Bearer " ++ c.clerkRefreshToken.getD "")
    else
      .error "Clerk refresh token not configured"
  | .jwt =>
    if tokenPresent c.authToken then
      .ok ("Bearer " ++ c.authToken.getD "")
    else
      .error "JWT token not configured"

/-- The PUT body written by markAsSent: status sent, sent_at stamped
with the current time, last_error written as null. -/
structure SentUpdateBody where
  status : EmailStatus
  sent_at : Option Nat
  last_error : Option String
deriving DecidableEq, Repr

/-- The PUT body written by markAsFailed: recomputed status, incremented
retry count, and the error description. -/
structure FailedUpdateBody where
  status : EmailStatus
  retry_count : Nat
  last_error : String
deriving DecidableEq, Repr

/-- Body of an update request issued by the queue client. -/
inductive RequestBody where
  | sentUpdate (b : SentUpdateBody)
  | failedUpdate (b : FailedUpdateBody)
deriving DecidableEq, Repr

/-- HTTP method of a request. -/
inductive HttpMethod where
  | get
  | put
  | post
deriving DecidableEq, Repr

/-- Description of an HTTP request the queue client issues. -/
structure Request where
  method : HttpMethod
  path : String
  limitParam : Option Nat := none
  statusParam : Option String := none
  authHeader : String
  body : Option RequestBody := none
deriving DecidableEq, Repr

/-- Body computed by markAsSent at time now. -/
def markAsSentBody (now : Nat) : SentUpdateBody :=
  { status := .sent, sent_at := some now, last_error := none }

/-- Body computed by markAsFailed: shouldRetry is retryCount less than
maxRetries; status is pending when retrying, failed otherwise; the
stored retry count is retryCount + 1; the error description goes to
last_error. -/
def markAsFailedBody (errorMessage : String) (retryCount maxRetries : Nat) :
    FailedUpdateBody :=
  let shouldRetry := retryCount < maxRetries
  { status := if shouldRetry then .pending else .failed
    retry_count := retryCount + 1
    last_error := errorMessage }

/-- getPendingEmails: builds the GET request for the pending list with
the limit clamped to 100, after obtaining the auth header.  An error
result means no request is issued. -/
def QueueClient.getPendingEmails (c : QueueClient) (limit : Nat) :
    Except String Request :=
  match c.getAuthHeader with
  | .error e => .error e
  | .ok h =>
    .ok { method := .get
          path := "/api/email-queue/pending/list"
          limitParam := some (min limit 100)
          authHeader := h }

/-- markAsSent: builds the PUT request updating the message to sent. -/
def QueueClient.markAsSent (c : QueueClient) (emailId : Nat) (now : Nat) :
    Except String Request :=
  match c.getAuthHeader with
  | .error e => .error e
  | .ok h =>
    .ok { method := .put
          path := "/api/email-queue/" ++ toString emailId
          authHeader := h
          body := some (.sentUpdate (markAsSentBody now)) }

/-- markAsFailed: builds the PUT request applying the retry policy. -/
def QueueClient.markAsFailed (c : QueueClient) (emailId : Nat)
    (errorMessage : String) (retryCount maxRetries : Nat) :
    Except String Request :=
  match c.getAuthHeader with
  | .error e => .error e
  | .ok h =>
    .ok { method := .put
          path := "/api/email-queue/" ++ toString emailId
          authHeader := h
          body := some (.failedUpdate
            (markAsFailedBody errorMessage retryCount maxRetries)) }

/-- The request built by countByStatus: a GET with the status filter and
the limit parameter fixed at 1. -/
def QueueClient.countByStatusRequest (c : QueueClient) (status : String) :
    Except String Request :=
  match c.getAuthHeader with
  | .error e => .error e
  | .ok h =>
    .ok { method := .get
          path := "/api/email-queue/"
          limitParam := some 1
          statusParam := some status
          authHeader := h }

/-- An HTTP response to a listing request: ok flag and optional data
array. -/
structure HttpResponse where
  ok : Bool
  data : Option (List EmailQueueItem)

/-- countByStatus: issues the limit-1 request; on a non-ok response it
returns 0 instead of raising; otherwise it returns the length of the
returned data array (0 when the data field is absent). -/
def QueueClient.countByStatus (c : QueueClient) (status : String)
    (resp : HttpResponse) : Except String Nat :=
  match c.countByStatusRequest status with
  | .error e => .error e
  | .ok _ => if resp.ok then .ok (resp.data.getD []).length else .ok 0

/-- getQueueStats: the three per-status counts obtained via
countByStatus, given the three responses. -/
def QueueClient.getQueueStats (c : QueueClient)
    (respPending respSent respFailed : HttpResponse) :
    Except String (Nat × Nat × Nat) :=
  match c.countByStatus "pending" respPending with
  | .error e => .error e
  | .ok p =>
    match c.countByStatus "sent" respSent with
    | .error e => .error e
    | .ok s =>
      match c.countByStatus "failed" respFailed with
      | .error e => .error e
      | .ok f => .ok (p, s, f)

/-! ## Processor -/

/-- Environment of one processor invocation: the outcome of each
external call, indexed by email id.  sendResult gives the delivery
outcome (provider id or error message), markSentResult and
markFailedResult give the outcome of the respective reconciliation
calls. -/
structure ProcessorEnv where
  sendResult : Nat → Except String String
  markSentResult : Nat → Except String Unit
  markFailedResult : Nat → Except String Unit

/-- Observable calls made while processing: a delivery attempt, a
markAsSent call, or a markAsFailed call with the retry arguments the
processor passes. -/
inductive Event where
  | sendAttempt (emailId : Nat)
  | markSentCall (emailId : Nat)
  | markFailedCall (emailId : Nat) (retryCount maxRetries : Nat)
deriving DecidableEq, Repr

/-- processEmail: attempts delivery, then marks sent; any error from
either call falls to the catch branch, which increments failed, appends
an error entry, and calls markAsFailed with the retry_count and
max_retries of the fetched message (a failure of that call is swallowed).
Returns the updated result and the trace of calls made. -/
def processEmail (env : ProcessorEnv) (email : EmailQueueItem)
    (result : PollResult) : PollResult × List Event :=
  match env.sendResult email.id with
  | .ok _ =>
    match env.markSentResult email.id with
    | .ok _ =>
      ({ result with processed := result.processed + 1 },
       [.sendAttempt email.id, .markSentCall email.id])
    | .error errorMessage =>
      ({ result with
          failed := result.failed + 1
          errors := result.errors ++ [{ emailId := email.id, error := errorMessage }] },
       [.sendAttempt email.id, .markSentCall email.id,
        .markFailedCall email.id email.retry_count email.max_retries])
  | .error errorMessage =>
    ({ result with
        failed := result.failed + 1
        errors := result.errors ++ [{ emailId := email.id, error := errorMessage }] },
     [.sendAttempt email.id,
      .markFailedCall email.id email.retry_count email.max_retries])

/-- The sequential loop over the fetched batch, threading the result and
concatenating the traces. -/
def processBatch (env : ProcessorEnv) :
    List EmailQueueItem → PollResult → PollResult × List Event
  | [], result => (result, [])
  | email :: rest, result =>
    let step := processEmail env email result
    let tail := processBatch env rest step.1
    (tail.1, step.2 ++ tail.2)

/-- processPendingEmails: given the outcome of the pending-list fetch,
either propagates the fetch error (no calls made), returns the zero
result on an empty batch, or runs the batch loop.  Per-message errors
never escape processEmail, so the ok branch always returns ok. -/
def processPendingEmails (env : ProcessorEnv)
    (fetchResult : Except String (List EmailQueueItem)) :
    Except String PollResult × List Event :=
  match fetchResult with
  | .error e => (.error e, [])
  | .ok emails =>
    if emails.length = 0 then
      (.ok { processed := 0, failed := 0, errors := [] }, [])
    else
      let p := processBatch env emails { processed := 0, failed := 0, errors := [] }
      (.ok p.1, p.2)

/-- The ids of the delivery attempts in a trace, in order. -/
def sendAttempts (tr : List Event) : List Nat :=
  tr.filterMap fun e =>
    match e with
    | .sendAttempt i => some i
    | _ => none

/-! ## Store-level semantics of the reconciliation updates -/

/-- Effect on a stored message of the PUT body written by markAsSent. -/
def applySentBody (msg : EmailQueueItem) (b : SentUpdateBody) : EmailQueueItem :=
  { msg with status := b.status, sent_at := b.sent_at, last_error := b.last_error }

/-- Effect on a stored message of the PUT body written by markAsFailed. -/
def applyFailedBody (msg : EmailQueueItem) (b : FailedUpdateBody) : EmailQueueItem :=
  { msg with status := b.status, retry_count := b.retry_count,
             last_error := some b.last_error }

/-- One reconciliation step performed by the core on the queue store,
viewed as a map from id to message.  A message is updated only after
being fetched as pending (the pending-list endpoint returns only
messages with status pending, per the Queue Store contract), and the
processor passes the fetched retry_count and max_retries to
markAsFailed. -/
inductive CoreStep : (Nat → EmailQueueItem) → (Nat → EmailQueueItem) → Prop where
  | markSent (σ : Nat → EmailQueueItem) (i now : Nat)
      (hp : (σ i).status = .pending) :
      CoreStep σ (Function.update σ i (applySentBody (σ i) (markAsSentBody now)))
  | markFailed (σ : Nat → EmailQueueItem) (i : Nat) (err : String)
      (hp : (σ i).status = .pending) :
      CoreStep σ (Function.update σ i (applyFailedBody (σ i)
        (markAsFailedBody err (σ i).retry_count (σ i).max_retries)))

/-- Any number of reconciliation steps. -/
def CoreTrace : (Nat → EmailQueueItem) → (Nat → EmailQueueItem) → Prop :=
  Relation.ReflTransGen CoreStep

/-! ## Helper lemmas -/

/-- Each processEmail call adds exactly one to processed + failed and
makes exactly one delivery attempt, on the processed email. -/
theorem processEmail_step (env : ProcessorEnv) (email : EmailQueueItem)
    (result : PollResult) :
    (processEmail env email result).1.processed + (processEmail env email result).1.failed
      = result.processed + result.failed + 1 ∧
    sendAttempts (processEmail env email result).2 = [email.id] := by
  cases hs : env.sendResult email.id with
  | ok pid =>
    cases hm : env.markSentResult email.id with
    | ok u => simp [processEmail, hs, hm, sendAttempts]; omega
    | error msg => simp [processEmail, hs, hm, sendAttempts]; omega
  | error msg => simp [processEmail, hs, sendAttempts]; omega

/-- sendAttempts distributes over trace concatenation. -/
theorem sendAttempts_append (t1 t2 : List Event) :
    sendAttempts (t1 ++ t2) = sendAttempts t1 ++ sendAttempts t2 := by
  simp [sendAttempts, List.filterMap_append]

/-- The batch loop attempts each fetched email exactly once, in order,
and its tallies account for every email. -/
theorem processBatch_counts (env : ProcessorEnv) (emails : List EmailQueueItem)
    (result : PollResult) :
    (processBatch env emails result).1.processed + (processBatch env emails result).1.failed
      = result.processed + result.failed + emails.length ∧
    sendAttempts (processBatch env emails result).2 = emails.map (fun e => e.id) := by
  induction emails generalizing result with
  | nil => simp [processBatch, sendAttempts]
  | cons email rest ih =>
    obtain ⟨hs1, hs2⟩ := processEmail_step env email result
    obtain ⟨ht1, ht2⟩ := ih (processEmail env email result).1
    simp only [processBatch, List.length_cons, List.map_cons]
    refine ⟨by omega, ?_⟩
    rw [sendAttempts_append, hs2, ht2]
    rfl

/-! ## Claim theorems -/

/-- Claim C1: for every batch returned by the pending-list fetch, the
result of processPendingEmails satisfies processed + failed = number of
messages fetched, and the trace of delivery attempts is exactly the
fetched messages in order, so each fetched message undergoes exactly one
delivery attempt in that invocation. -/
theorem c1_processed_plus_failed_eq_fetched (env : ProcessorEnv)
    (emails : List EmailQueueItem) (r : PollResult) (tr : List Event)
    (h : processPendingEmails env (.ok emails) = (.ok r, tr)) :
    r.processed + r.failed = emails.length ∧
    sendAttempts tr = emails.map (fun e => e.id) := by
  by_cases he : emails.length = 0
  · rw [List.length_eq_zero] at he
    subst he
    simp only [processPendingEmails, List.length_nil, if_pos rfl] at h
    obtain ⟨h1, h2⟩ := Prod.mk.injEq .. ▸ h
    cases h1
    cases h2
    simp [sendAttempts]
  · simp only [processPendingEmails, if_neg he] at h
    have hc := processBatch_counts env emails { processed := 0, failed := 0, errors := [] }
    obtain ⟨h1, h2⟩ := Prod.mk.injEq .. ▸ h
    cases h2
    have hr : r = (processBatch env emails { processed := 0, failed := 0, errors := [] }).1 := by
      cases h1
      rfl
    subst hr
    exact ⟨by simpa using hc.1, hc.2⟩

/-- Witness environment where every external call succeeds. -/
def envAllOk : ProcessorEnv :=
  { sendResult := fun _ => .ok "provider-id"
    markSentResult := fun _ => .ok ()
    markFailedResult := fun _ => .ok () }

/-- A concrete pending email used in witnesses. -/
def email1 : EmailQueueItem :=
  { id := 1, recipient_email := "a@example.com", subject := "s", body := "b"
    status := .pending, retry_count := 0, max_retries := 3 }

/-- A second concrete pending email used in witnesses. -/
def email2 : EmailQueueItem :=
  { id := 2, recipient_email := "c@example.com", subject := "t", body := "d"
    status := .pending, retry_count := 1, max_retries := 3 }

/-- Witness for claim C1 at a concrete two-email batch. -/
theorem c1_witness :
    ({ processed := 2, failed := 0, errors := [] } : PollResult).processed
        + ({ processed := 2, failed := 0, errors := [] } : PollResult).failed
      = [email1, email2].length ∧
    sendAttempts [Event.sendAttempt 1, Event.markSentCall 1,
                  Event.sendAttempt 2, Event.markSentCall 2]
      = [email1, email2].map (fun e => e.id) :=
  c1_processed_plus_failed_eq_fetched envAllOk [email1, email2]
    { processed := 2, failed := 0, errors := [] }
    [Event.sendAttempt 1, Event.markSentCall 1,
     Event.sendAttempt 2, Event.markSentCall 2] rfl

/-- Claim C4: processPendingEmails never propagates an error caused by
an individual message: whenever the fetch succeeds the result is ok,
whatever the per-message outcomes; and when the fetch fails, that error
is propagated and the trace is empty, so no delivery attempt occurs. -/
theorem c4_error_propagation (env : ProcessorEnv)
    (emails : List EmailQueueItem) (e : String) :
    (∃ r tr, processPendingEmails env (.ok emails) = (.ok r, tr)) ∧
    processPendingEmails env (.error e) = (.error e, []) := by
  constructor
  · by_cases he : emails.length = 0
    · exact ⟨{ processed := 0, failed := 0, errors := [] }, [],
        by simp only [processPendingEmails, if_pos he]⟩
    · exact ⟨(processBatch env emails { processed := 0, failed := 0, errors := [] }).1,
        (processBatch env emails { processed := 0, failed := 0, errors := [] }).2,
        by simp only [processPendingEmails, if_neg he]⟩
  · rfl

/-- Claim C5: on an empty fetched batch, processPendingEmails returns
the zero result as a non-error, with an empty trace: no delivery call
and no status-update call is made. -/
theorem c5_empty_batch_noop (env : ProcessorEnv) :
    processPendingEmails env (.ok []) =
      (.ok { processed := 0, failed := 0, errors := [] }, []) := rfl

/-- Environment where delivery succeeds but the markAsSent call fails,
used for claim C3. -/
def envMarkSentFails : ProcessorEnv :=
  { sendResult := fun _ => .ok "provider-id"
    markSentResult := fun _ => .error "Failed to mark email as sent: 500"
    markFailedResult := fun _ => .ok () }

/-- Counterexample to claim C3 as stated: for a message whose delivery
succeeds but whose markAsSent call fails, the processor counts the
message in the failed tally, not the processed tally, and it does invoke
markAsFailed for that message. -/
theorem c3_counterexample :
    (processEmail envMarkSentFails email1
        { processed := 0, failed := 0, errors := [] }).1.processed = 0 ∧
    (processEmail envMarkSentFails email1
        { processed := 0, failed := 0, errors := [] }).1.failed = 1 ∧
    Event.markFailedCall 1 0 3 ∈
      (processEmail envMarkSentFails email1
        { processed := 0, failed := 0, errors := [] }).2 := by
  refine ⟨rfl, rfl, ?_⟩
  simp [processEmail, envMarkSentFails, email1]

/-- Claim C3 as amended: when delivery succeeds but the markAsSent call
fails, the processor continues with the rest of the batch (every
remaining message is still attempted), but the message is counted in the
failed tally with an error entry carrying the markAsSent error message,
and markAsFailed is invoked for it with its fetched retry_count and
max_retries. -/
theorem c3_markSent_failure_amended (env : ProcessorEnv)
    (email : EmailQueueItem) (result : PollResult) (pid msg : String)
    (hsend : env.sendResult email.id = .ok pid)
    (hmark : env.markSentResult email.id = .error msg) :
    processEmail env email result =
      ({ result with
          failed := result.failed + 1
          errors := result.errors ++ [{ emailId := email.id, error := msg }] },
       [.sendAttempt email.id, .markSentCall email.id,
        .markFailedCall email.id email.retry_count email.max_retries]) ∧
    ∀ rest : List EmailQueueItem,
      sendAttempts (processBatch env (email :: rest) result).2
        = (email :: rest).map (fun e => e.id) := by
  constructor
  · simp [processEmail, hsend, hmark]
  · intro rest
    exact (processBatch_counts env (email :: rest) result).2

/-- Witness for the amended claim C3 at a concrete input. -/
theorem c3_amended_witness :
    (processEmail envMarkSentFails email1 { processed := 0, failed := 0, errors := [] } =
      ({ processed := 0, failed := 1,
         errors := [{ emailId := 1, error := "Failed to mark email as sent: 500" }] },
       [.sendAttempt 1, .markSentCall 1, .markFailedCall 1 0 3])) ∧
    sendAttempts (processBatch envMarkSentFails [email1, email2]
        { processed := 0, failed := 0, errors := [] }).2 = [1, 2] := by
  have h := c3_markSent_failure_amended envMarkSentFails email1
    { processed := 0, failed := 0, errors := [] } "provider-id"
    "Failed to mark email as sent: 500" rfl rfl
  refine ⟨?_, ?_⟩
  · have h1 := h.1
    simpa [email1] using h1
  · have h2 := h.2 [email2]
    simpa [email1, email2] using h2

/-- Claim C2: every successful markAsFailed call writes an update whose
body is computed by the retry policy: the stored retry count is
retryCount + 1, the error description goes to last_error, and the status
is pending exactly when retryCount is less than maxRetries, failed
otherwise. -/
theorem c2_markAsFailed_retry_policy (c : QueueClient) (emailId : Nat)
    (err : String) (r m : Nat) (req : Request)
    (h : c.markAsFailed emailId err r m = .ok req) :
    req.body = some (.failedUpdate (markAsFailedBody err r m)) ∧
    (markAsFailedBody err r m).retry_count = r + 1 ∧
    (markAsFailedBody err r m).last_error = err ∧
    (r < m → (markAsFailedBody err r m).status = .pending) ∧
    (m ≤ r → (markAsFailedBody err r m).status = .failed) := by
  refine ⟨?_, rfl, rfl, ?_, ?_⟩
  · cases ha : c.getAuthHeader with
    | error e => simp [QueueClient.markAsFailed, ha] at h
    | ok hd =>
      simp only [QueueClient.markAsFailed, ha] at h
      cases h
      rfl
  · intro hlt
    simp [markAsFailedBody, hlt]
  · intro hge
    simp [markAsFailedBody, Nat.not_lt.mpr hge]

/-- A concrete queue client with a configured JWT credential, used in
witnesses. -/
def clientJwt : QueueClient :=
  { apiBaseUrl := "http://localhost:8787", authMethod := .jwt,
    authToken := some "tkn" }

/-- The concrete request markAsFailed builds for the witness input. -/
def failedReq0 : Request :=
  { method := .put, path := "/api/email-queue/7", authHeader := "Bearer tkn",
    body := some (.failedUpdate (markAsFailedBody "oops" 1 3)) }

/-- Witness for claim C2: a retryable failure at retryCount 1,
maxRetries 3 yields a pending update with retry count 2, and the
non-retryable instance is checked through the same theorem at
retryCount 5. -/
theorem c2_witness :
    failedReq0.body = some (.failedUpdate (markAsFailedBody "oops" 1 3)) ∧
    (markAsFailedBody "oops" 1 3).retry_count = 2 ∧
    (markAsFailedBody "oops" 1 3).status = .pending ∧
    (markAsFailedBody "oops" 5 3).status = .failed := by
  have h1 := c2_markAsFailed_retry_policy clientJwt 7 "oops" 1 3 failedReq0 rfl
  have h2 := c2_markAsFailed_retry_policy clientJwt 7 "oops" 5 3
    { method := .put, path := "/api/email-queue/7", authHeader := "Bearer tkn",
      body := some (.failedUpdate (markAsFailedBody "oops" 5 3)) } rfl
  exact ⟨h1.1, h1.2.1, h1.2.2.2.1 (by decide), h2.2.2.2.2 (by decide)⟩

/-- Claim C6: every successful markAsSent call writes an update setting
status to sent, stamping sent_at with the current time, and clearing
last_error; applied to any stored message, the updated record has
status sent, sent_at set, and last_error cleared. -/
theorem c6_markAsSent_update (c : QueueClient) (emailId now : Nat)
    (req : Request) (h : c.markAsSent emailId now = .ok req) :
    req.body = some (.sentUpdate (markAsSentBody now)) ∧
    ∀ msg : EmailQueueItem,
      (applySentBody msg (markAsSentBody now)).status = .sent ∧
      (applySentBody msg (markAsSentBody now)).sent_at = some now ∧
      (applySentBody msg (markAsSentBody now)).last_error = none := by
  refine ⟨?_, fun msg => ⟨rfl, rfl, rfl⟩⟩
  cases ha : c.getAuthHeader with
  | error e => simp [QueueClient.markAsSent, ha] at h
  | ok hd =>
    simp only [QueueClient.markAsSent, ha] at h
    cases h
    rfl

/-- Witness for claim C6 at a concrete client, email id, and time. -/
theorem c6_witness :
    ({ method := .put, path := "/api/email-queue/7",
       authHeader := "Bearer tkn",
       body := some (.sentUpdate (markAsSentBody 42)) } : Request).body
        = some (.sentUpdate (markAsSentBody 42)) ∧
    (applySentBody email1 (markAsSentBody 42)).status = .sent ∧
    (applySentBody email1 (markAsSentBody 42)).sent_at = some 42 ∧
    (applySentBody email1 (markAsSentBody 42)).last_error = none := by
  have h := c6_markAsSent_update clientJwt 7 42
    { method := .put, path := "/api/email-queue/7", authHeader := "Bearer tkn",
      body := some (.sentUpdate (markAsSentBody 42)) } rfl
  exact ⟨h.1, h.2 email1⟩

/-- One reconciliation step never decreases any retry count, and never
touches a message whose status is failed. -/
theorem coreStep_mono (σ σ' : Nat → EmailQueueItem) (h : CoreStep σ σ')
    (i : Nat) :
    (σ i).retry_count ≤ (σ' i).retry_count ∧
    ((σ i).status = .failed → σ' i = σ i) := by
  cases h with
  | markSent j now hp =>
    by_cases hij : i = j
    · subst hij
      refine ⟨?_, fun hf => ?_⟩
      · rw [Function.update_same]
        simp [applySentBody]
      · rw [hp] at hf
        simp at hf
    · simp [Function.update_apply, hij]
  | markFailed j err hp =>
    by_cases hij : i = j
    · subst hij
      refine ⟨?_, fun hf => ?_⟩
      · rw [Function.update_same]
        simp only [applyFailedBody, markAsFailedBody]
        omega
      · rw [hp] at hf
        simp at hf
    · simp [Function.update_apply, hij]

/-- Claim C7: across every sequence of reconciliation steps performed by
the core, a retry count never decreases, and a message that has reached
status failed is never touched again (it is never re-marked pending or
sent), since each step requires the message to have been fetched with
status pending. -/
theorem c7_retry_monotone_failed_absorbing (σ σ' : Nat → EmailQueueItem)
    (h : CoreTrace σ σ') (i : Nat) :
    (σ i).retry_count ≤ (σ' i).retry_count ∧
    ((σ i).status = .failed → σ' i = σ i) := by
  induction h with
  | refl => exact ⟨le_refl _, fun _ => rfl⟩
  | tail hsteps hstep ih =>
    obtain ⟨ih1, ih2⟩ := ih
    obtain ⟨hs1, hs2⟩ := coreStep_mono _ _ hstep i
    refine ⟨le_trans ih1 hs1, fun hf => ?_⟩
    have hmid := ih2 hf
    rw [← hmid] at hf ⊢
    exact hs2 (hmid ▸ hf)

/-- Witness store: message 1 is pending with retry count 0. -/
def store0 : Nat → EmailQueueItem := fun _ => email1

/-- Witness store after one markAsFailed step on message 1. -/
def store1 : Nat → EmailQueueItem :=
  Function.update store0 1 (applyFailedBody (store0 1)
    (markAsFailedBody "send error" (store0 1).retry_count (store0 1).max_retries))

/-- Witness for claim C7: a one-step trace applying markAsFailed to the
pending message 1. -/
theorem c7_witness :
    (store0 1).retry_count ≤ (store1 1).retry_count ∧
    ((store0 1).status = .failed → store1 1 = store0 1) :=
  c7_retry_monotone_failed_absorbing store0 store1
    (Relation.ReflTransGen.single
      (CoreStep.markFailed store0 1 "send error" rfl)) 1

/-- True when the bearer credential for the active auth method of the
client is absent (in the JavaScript sense: undefined or empty). -/
def credentialAbsent (c : QueueClient) : Bool :=
  match c.authMethod with
  | .clerk => !tokenPresent c.clerkRefreshToken
  | .jwt => !tokenPresent c.authToken

/-- A missing credential makes getAuthHeader fail. -/
theorem getAuthHeader_error_of_absent (c : QueueClient)
    (h : credentialAbsent c = true) : ∃ e, c.getAuthHeader = .error e := by
  cases hm : c.authMethod with
  | clerk =>
    refine ⟨"Clerk refresh token not configured", ?_⟩
    simp only [credentialAbsent, hm, Bool.not_eq_true'] at h
    simp [QueueClient.getAuthHeader, hm, h]
  | jwt =>
    refine ⟨"JWT token not configured", ?_⟩
    simp only [credentialAbsent, hm, Bool.not_eq_true'] at h
    simp [QueueClient.getAuthHeader, hm, h]

/-- Claim C8: when the configured bearer credential for the active auth
method is absent, every queue client operation returns a configuration
error, so no request value exists and no network call is issued. -/
theorem c8_fail_fast_without_credential (c : QueueClient)
    (limit emailId now r m : Nat) (err stat : String)
    (h : credentialAbsent c = true) :
    (∃ e, c.getPendingEmails limit = .error e) ∧
    (∃ e, c.markAsSent emailId now = .error e) ∧
    (∃ e, c.markAsFailed emailId err r m = .error e) ∧
    (∃ e, c.countByStatusRequest stat = .error e) := by
  obtain ⟨e, he⟩ := getAuthHeader_error_of_absent c h
  exact ⟨⟨e, by simp [QueueClient.getPendingEmails, he]⟩,
         ⟨e, by simp [QueueClient.markAsSent, he]⟩,
         ⟨e, by simp [QueueClient.markAsFailed, he]⟩,
         ⟨e, by simp [QueueClient.countByStatusRequest, he]⟩⟩

/-- A concrete client whose JWT credential is absent. -/
def clientNoToken : QueueClient :=
  { apiBaseUrl := "http://localhost:8787", authMethod := .jwt }

/-- Witness for claim C8 at the credential-less client. -/
theorem c8_witness :
    (∃ e, clientNoToken.getPendingEmails 10 = .error e) ∧
    (∃ e, clientNoToken.markAsSent 7 42 = .error e) ∧
    (∃ e, clientNoToken.markAsFailed 7 "oops" 1 3 = .error e) ∧
    (∃ e, clientNoToken.countByStatusRequest "pending" = .error e) :=
  c8_fail_fast_without_credential clientNoToken 10 7 42 1 3 "oops" "pending" rfl

/-- Claim C9: every successful pending-list request carries the limit
parameter min(limit, 100), which never exceeds the provider-side
maximum of 100. -/
theorem c9_limit_clamped (c : QueueClient) (limit : Nat) (req : Request)
    (h : c.getPendingEmails limit = .ok req) :
    req.limitParam = some (min limit 100) ∧ min limit 100 ≤ 100 := by
  refine ⟨?_, min_le_right _ _⟩
  cases ha : c.getAuthHeader with
  | error e => simp [QueueClient.getPendingEmails, ha] at h
  | ok hd =>
    simp only [QueueClient.getPendingEmails, ha] at h
    cases h
    rfl

/-- Witness for claim C9 with a requested limit of 250, clamped to
100. -/
theorem c9_witness :
    ({ method := .get, path := "/api/email-queue/pending/list",
       limitParam := some (min 250 100),
       authHeader := "Bearer tkn" } : Request).limitParam
      = some (min 250 100) ∧ min 250 100 ≤ 100 :=
  c9_limit_clamped clientJwt 250
    { method := .get, path := "/api/email-queue/pending/list",
      limitParam := some (min 250 100), authHeader := "Bearer tkn" } rfl

/-- With a configured credential, countByStatus returns the length of
the data array on an ok response and 0 otherwise. -/
theorem countByStatus_eval (c : QueueClient) (stat : String)
    (resp : HttpResponse) (hd : String) (ha : c.getAuthHeader = .ok hd) :
    c.countByStatus stat resp =
      .ok (if resp.ok then (resp.data.getD []).length else 0) := by
  simp only [QueueClient.countByStatus, QueueClient.countByStatusRequest, ha]
  by_cases hok : resp.ok <;> simp [hok]

/-- Claim C10: the count-by-status request fixes the limit parameter at
1 and the count returned is the length of the returned data array (0 on
a non-ok response, without raising), so whenever the store honours the
limit each field of getQueueStats is at most 1 regardless of the true
queue size. -/
theorem c10_count_approximation (c : QueueClient) (stat : String)
    (resp rp rs rf : HttpResponse) (req : Request) (p s f : Nat) :
    (c.countByStatusRequest stat = .ok req → req.limitParam = some 1) ∧
    (c.countByStatusRequest stat = .ok req →
      c.countByStatus stat resp =
        .ok (if resp.ok then (resp.data.getD []).length else 0)) ∧
    (c.countByStatusRequest stat = .ok req → resp.ok = false →
      c.countByStatus stat resp = .ok 0) ∧
    (c.getQueueStats rp rs rf = .ok (p, s, f) →
      p = (if rp.ok then (rp.data.getD []).length else 0) ∧
      s = (if rs.ok then (rs.data.getD []).length else 0) ∧
      f = (if rf.ok then (rf.data.getD []).length else 0)) := by
  refine ⟨?_, ?_, ?_, ?_⟩
  · intro h
    cases ha : c.getAuthHeader with
    | error e => simp [QueueClient.countByStatusRequest, ha] at h
    | ok hd =>
      simp only [QueueClient.countByStatusRequest, ha] at h
      cases h
      rfl
  · intro h
    simp only [QueueClient.countByStatus, h]
    by_cases hok : resp.ok <;> simp [hok]
  · intro h hok
    simp [QueueClient.countByStatus, h, hok]
  · intro h
    cases ha : c.getAuthHeader with
    | error e =>
      simp [QueueClient.getQueueStats, QueueClient.countByStatus,
            QueueClient.countByStatusRequest, ha] at h
    | ok hd =>
      rw [QueueClient.getQueueStats, countByStatus_eval c "pending" rp hd ha,
          countByStatus_eval c "sent" rs hd ha,
          countByStatus_eval c "failed" rf hd ha] at h
      injection h with h'
      simp only [Prod.mk.injEq] at h'
      exact ⟨h'.1.symm, h'.2.1.symm, h'.2.2.symm⟩

/-- A non-ok HTTP response used in the C10 witness. -/
def respBad : HttpResponse := { ok := false, data := none }

/-- An ok HTTP response with one item, used in the C10 witness. -/
def respOne : HttpResponse := { ok := true, data := some [email1] }

/-- The request countByStatus builds for the witness client. -/
def countReq0 : Request :=
  { method := .get, path := "/api/email-queue/", limitParam := some 1,
    statusParam := some "pending", authHeader := "Bearer tkn" }

/-- Witness for claim C10: the request carries limit 1, a non-ok
response yields count 0, and stats computed from one-item and non-ok
responses are each at most 1. -/
theorem c10_witness :
    countReq0.limitParam = some 1 ∧
    clientJwt.countByStatus "pending" respBad = .ok 0 ∧
    ((1 : Nat) = if respOne.ok then (respOne.data.getD []).length else 0) := by
  have h := c10_count_approximation clientJwt "pending" respBad respOne
    respBad respBad countReq0 1 0 0
  exact ⟨h.1 rfl, h.2.2.1 rfl rfl, (h.2.2.2 rfl).1⟩

end LocomotiveMailer
